import Mathlib

/-!
Shallow embedding of the pomodoro-pulse timer engine
(src/src-tauri/src/lib.rs): the timer state machine (refresh, start,
pause, resume, advance), persisted-state normalization, session
recording, the remote-control request handler (auth and routing), the
settings-update command, and the analytics streak computation.

Modelling conventions: Rust i64 becomes Int (Rust `%` on i64 is the
truncated remainder, Int.tmod); wall-clock time (now_ts) is an explicit
`now : Int` parameter; the SQLite connection, sockets, notifications and
event emission are side effects outside the state transition, so each
Rust function that mutates the shared model is embedded as a pure
function from the old TimerState (plus inputs) to the new TimerState.
The random token generator and the local-timezone day bucketing are
passed in as parameters (`fresh` / `dayOf`).
-/

namespace Pomodoro

/-- Rust `enum TimerPhase`. -/
inductive TimerPhase where
  | focus
  | shortBreak
  | longBreak
  deriving DecidableEq

/-- Rust `struct AppSettings`. -/
structure AppSettings where
  focus_min : Int
  short_break_min : Int
  long_break_min : Int
  long_break_every : Int
  theme : String
  sound_enabled : Bool
  notifications_enabled : Bool
  remote_control_enabled : Bool
  remote_control_port : Int
  remote_control_token : String
  deriving DecidableEq

/-- Rust `impl Default for AppSettings`. -/
def AppSettings.defaultSettings : AppSettings :=
  { focus_min := 25
    short_break_min := 5
    long_break_min := 15
    long_break_every := 4
    theme := "light"
    sound_enabled := true
    notifications_enabled := true
    remote_control_enabled := false
    remote_control_port := 48484
    remote_control_token := "" }

/-- Rust `AppSettings::duration_for_phase_seconds`. -/
def duration_for_phase_seconds (s : AppSettings) (phase : TimerPhase) : Int :=
  match phase with
  | TimerPhase.focus => s.focus_min * 60
  | TimerPhase.shortBreak => s.short_break_min * 60
  | TimerPhase.longBreak => s.long_break_min * 60

/-- Rust `struct TimerState`. -/
structure TimerState where
  phase : TimerPhase
  remaining_seconds : Int
  is_running : Bool
  cycle_index : Int
  started_at : Option Int
  phase_total_seconds : Int
  interruptions : Int
  current_project_id : Option Int
  current_tag_ids : List Int
  target_ends_at : Option Int
  deriving DecidableEq

/-- Rust `TimerState::default_with_settings`. -/
def default_with_settings (settings : AppSettings) : TimerState :=
  let d := duration_for_phase_seconds settings TimerPhase.focus
  { phase := TimerPhase.focus
    remaining_seconds := d
    is_running := false
    cycle_index := 0
    started_at := none
    phase_total_seconds := d
    interruptions := 0
    current_project_id := none
    current_tag_ids := []
    target_ends_at := none }

/-- Rust `i64::clamp(lo, hi)` (for lo ≤ hi). -/
def clampInt (x lo hi : Int) : Int := min (max x lo) hi

/-- Rust `normalize_timer_state` (lib.rs lines 439-451): recompute the
phase total from the settings, reset out-of-range remaining time to a
paused full phase, and clamp cycle index and interruption counter. -/
def normalize_timer_state (timer0 : TimerState) (settings : AppSettings) : TimerState :=
  let t := { timer0 with phase_total_seconds := duration_for_phase_seconds settings timer0.phase }
  let t := if t.remaining_seconds ≤ 0 ∨ t.phase_total_seconds < t.remaining_seconds then
      { t with
        remaining_seconds := t.phase_total_seconds
        is_running := false
        target_ends_at := none }
    else t
  let t := if t.cycle_index < 0 then { t with cycle_index := 0 } else t
  { t with interruptions := max t.interruptions 0 }

/-- Rust `load_or_create_timer` (lib.rs lines 453-459), with the storage
lookup abstracted to an `Option TimerState` argument: a loaded state is
normalized, an absent one is created from the settings defaults. -/
def load_or_create_timer (loaded : Option TimerState) (settings : AppSettings) : TimerState :=
  normalize_timer_state (loaded.getD (default_with_settings settings)) settings

/-- Rust `refresh_remaining` (lib.rs lines 465-471), with `now_ts()`
passed as the `now` argument. -/
def refresh_remaining (timer : TimerState) (now : Int) : TimerState :=
  if timer.is_running then
    match timer.target_ends_at with
    | some target_ends_at =>
        { timer with remaining_seconds := max (target_ends_at - now) 0 }
    | none => timer
  else timer

/-- Rust `struct SessionRecord`. -/
structure SessionRecord where
  id : Int
  started_at : Int
  ended_at : Int
  phase : TimerPhase
  duration_sec : Int
  completed : Bool
  interruptions : Int
  project_id : Option Int
  tag_ids : List Int
  deriving DecidableEq

/-- Rust `record_session` (lib.rs lines 500-561) with the SQLite insert
abstracted away: the row id is an argument and the returned record's
fields are computed exactly as in the source. -/
def record_session (timer : TimerState) (completed : Bool) (ended_at : Int)
    (id : Int) : SessionRecord :=
  let elapsed := if completed then timer.phase_total_seconds
    else clampInt (timer.phase_total_seconds - timer.remaining_seconds) 0
      timer.phase_total_seconds
  let started_at := timer.started_at.getD (ended_at - max elapsed 1)
  let project_id := match timer.phase with
    | TimerPhase.focus => timer.current_project_id
    | _ => none
  let tag_ids := if timer.phase = TimerPhase.focus then timer.current_tag_ids else []
  { id := id
    started_at := started_at
    ended_at := ended_at
    phase := timer.phase
    duration_sec := elapsed
    completed := completed
    interruptions := timer.interruptions
    project_id := project_id
    tag_ids := tag_ids }

/-- Rust `advance_timer` (lib.rs lines 563-583). -/
def advance_timer (timer : TimerState) (settings : AppSettings) : TimerState :=
  let step : TimerState × TimerPhase :=
    match timer.phase with
    | TimerPhase.focus =>
        let c := timer.cycle_index + 1
        ({ timer with cycle_index := c },
         if c.tmod settings.long_break_every = 0 then TimerPhase.longBreak
         else TimerPhase.shortBreak)
    | TimerPhase.shortBreak => (timer, TimerPhase.focus)
    | TimerPhase.longBreak => (timer, TimerPhase.focus)
  let d := duration_for_phase_seconds settings step.2
  { step.1 with
    phase := step.2
    phase_total_seconds := d
    remaining_seconds := d
    is_running := false
    started_at := none
    target_ends_at := none
    interruptions := 0 }

/-- Rust `struct StartTimerRequest` (already-deserialized request body). -/
structure StartTimerRequest where
  project_id : Option (Option Int)
  tag_ids : Option (List Int)
  deriving DecidableEq

/-- Shared body of start and resume: apply the optional project/tag
context from the payload (lib.rs lines 711-718 and 762-769). -/
def apply_start_payload (timer : TimerState) (payload : Option StartTimerRequest) : TimerState :=
  match payload with
  | some p =>
      let t := match p.project_id with
        | some pid => { timer with current_project_id := pid }
        | none => timer
      match p.tag_ids with
      | some tags => { t with current_tag_ids := tags }
      | none => t
  | none => timer

/-- Rust `timer_start_inner` (lib.rs lines 702-736): refresh, apply the
payload context, restart a drained phase, stamp `started_at`, and run. -/
def timer_start_inner (timer : TimerState) (payload : Option StartTimerRequest)
    (now : Int) : TimerState :=
  let t := refresh_remaining timer now
  let t := apply_start_payload t payload
  let t := if t.remaining_seconds ≤ 0 then
      { t with remaining_seconds := t.phase_total_seconds } else t
  let t := if t.started_at = none then { t with started_at := some now } else t
  { t with is_running := true, target_ends_at := some (now + t.remaining_seconds) }

/-- Rust `timer_pause_inner` (lib.rs lines 738-753): refresh, count a
Focus interruption, stop the clock. -/
def timer_pause_inner (timer : TimerState) (now : Int) : TimerState :=
  let t := refresh_remaining timer now
  let t := if t.phase = TimerPhase.focus ∧ t.is_running = true then
      { t with interruptions := t.interruptions + 1 } else t
  { t with is_running := false, target_ends_at := none }

/-- Rust `timer_resume_inner` (lib.rs lines 755-784): like start but
without the initial refresh. -/
def timer_resume_inner (timer : TimerState) (payload : Option StartTimerRequest)
    (now : Int) : TimerState :=
  let t := apply_start_payload timer payload
  let t := if t.remaining_seconds ≤ 0 then
      { t with remaining_seconds := t.phase_total_seconds } else t
  let t := if t.started_at = none then { t with started_at := some now } else t
  { t with is_running := true, target_ends_at := some (now + t.remaining_seconds) }

/-- Rust `timer_get_state_inner` (lib.rs lines 799-803): refreshes the
shared timer in place and returns it. -/
def timer_get_state_inner (timer : TimerState) (now : Int) : TimerState :=
  refresh_remaining timer now

/-- Rust `timer_skip_inner` / `complete_and_advance` effect on the timer
(lib.rs lines 585-615 and 786-797): refresh, record the session (a side
effect on storage), then advance the phase. -/
def timer_skip_inner (timer : TimerState) (settings : AppSettings) (now : Int) : TimerState :=
  advance_timer (refresh_remaining timer now) settings

/-- The `POST /api/toggle` route body (lib.rs lines 1172-1192): read the
snapshot (which refreshes the shared timer in place), then dispatch to
pause, resume or start on the refreshed shared state. -/
def toggle_route (timer : TimerState) (now : Int) : TimerState :=
  let st := timer_get_state_inner timer now
  if st.is_running then timer_pause_inner st now
  else if st.started_at.isSome then timer_resume_inner st none now
  else timer_start_inner st none now

/-- ASCII lowercase of one character, as Rust `u8::to_ascii_lowercase`. -/
def ascii_lower (c : Char) : Char :=
  if 'A' ≤ c ∧ c ≤ 'Z' then Char.ofNat (c.toNat + 32) else c

/-- Rust `str::eq_ignore_ascii_case`. -/
def eq_ignore_ascii_case (a b : String) : Bool :=
  a.data.map ascii_lower == b.data.map ascii_lower

/-- Rust `header_value` (lib.rs lines 849-856): first header whose name
matches case-insensitively. -/
def header_value (headers : List (String × String)) (name : String) : Option String :=
  (headers.find? (fun h => eq_ignore_ascii_case h.1 name)).map (fun h => h.2)

/-- Split a character list at every occurrence of `sep`, as Rust
`str::split(sep)` (an empty input yields one empty piece). -/
def split_on_char (sep : Char) (cs : List Char) : List (List Char) :=
  match cs with
  | [] => [[]]
  | c :: rest =>
      let r := split_on_char sep rest
      if c = sep then [] :: r
      else
        match r with
        | [] => [[c]]
        | h :: t => (c :: h) :: t

/-- Split a character list at the first occurrence of `sep`, as Rust
`str::split_once(sep)`: `none` when `sep` does not occur. -/
def split_once_char (sep : Char) (cs : List Char) : Option (List Char × List Char) :=
  match cs with
  | [] => none
  | c :: rest =>
      if c = sep then some ([], rest)
      else
        match split_once_char sep rest with
        | some (a, b) => some (c :: a, b)
        | none => none

/-- Rust `parse_query_param` (lib.rs lines 858-867): split the query on
ampersands, split each part at the first equals sign, return the value
of the first part whose key matches (empty value when there is no
equals sign). -/
def parse_query_param (query key : String) : Option String :=
  (split_on_char '&' query.data).findSome? (fun part =>
    match split_once_char '=' part with
    | some (k, v) => if String.mk k = key then some (String.mk v) else none
    | none => if String.mk part = key then some "" else none)

/-- Rust `split_path_query` (lib.rs lines 869-874): split at the first
question mark, query is empty when there is none. -/
def split_path_query (target : String) : String × String :=
  match split_once_char '?' target.data with
  | some (p, q) => (String.mk p, String.mk q)
  | none => (target, "")

/-- A parsed remote request: method, request target (path plus optional
query string), headers, and the deserialized optional JSON body. -/
structure RemoteRequest where
  method : String
  target : String
  headers : List (String × String)
  payload : Option StartTimerRequest
  deriving DecidableEq

/-- The token supplied with a request: the `X-Pomodoro-Token` header,
else the `token` query parameter, else the empty string (lib.rs lines
1150-1152). -/
def supplied_token (req : RemoteRequest) : String :=
  ((header_value req.headers "X-Pomodoro-Token").orElse
    (fun _ => parse_query_param (split_path_query req.target).2 "token")).getD ""

/-- Rust `remote_handle_connection` (lib.rs lines 1019-1246) after a
successful parse: the decision sequence OPTIONS → disabled → root page →
auth → routing, returning the response status line prefix and the
resulting shared timer state (unchanged when no timer operation runs).
Body serialization and socket I/O are omitted. -/
def remote_handle_connection (req : RemoteRequest) (enabled : Bool)
    (token_expected : String) (settings : AppSettings) (timer : TimerState)
    (now : Int) : String × TimerState :=
  let path := (split_path_query req.target).1
  if eq_ignore_ascii_case req.method "OPTIONS" = true then ("204 No Content", timer)
  else if enabled = false then ("404 Not Found", timer)
  else if eq_ignore_ascii_case req.method "GET" = true ∧ path = "/" then ("200 OK", timer)
  else if supplied_token req ≠ token_expected then ("401 Unauthorized", timer)
  else
    match req.method, path with
    | "GET", "/api/state" => ("200 OK", timer_get_state_inner timer now)
    | "POST", "/api/toggle" => ("200 OK", toggle_route timer now)
    | "POST", "/api/start" => ("200 OK", timer_start_inner timer req.payload now)
    | "POST", "/api/pause" => ("200 OK", timer_pause_inner timer now)
    | "POST", "/api/resume" => ("200 OK", timer_resume_inner timer req.payload now)
    | "POST", "/api/skip" => ("200 OK", timer_skip_inner timer settings now)
    | _, _ => ("404 Not Found", timer)

/-- Rust `struct AppSettingsPatch`. -/
structure AppSettingsPatch where
  focus_min : Option Int
  short_break_min : Option Int
  long_break_min : Option Int
  long_break_every : Option Int
  theme : Option String
  sound_enabled : Option Bool
  notifications_enabled : Option Bool
  remote_control_enabled : Option Bool
  remote_control_port : Option Int
  remote_control_token : Option String
  deriving DecidableEq

/-- Field-by-field patch application from `settings_update` (lib.rs
lines 1869-1898); the theme patch is trimmed and lowercased. -/
def apply_settings_patch (s0 : AppSettings) (p : AppSettingsPatch) : AppSettings :=
  let s := match p.focus_min with | some v => { s0 with focus_min := v } | none => s0
  let s := match p.short_break_min with | some v => { s with short_break_min := v } | none => s
  let s := match p.long_break_min with | some v => { s with long_break_min := v } | none => s
  let s := match p.long_break_every with | some v => { s with long_break_every := v } | none => s
  let s := match p.theme with | some v => { s with theme := v.trim.toLower } | none => s
  let s := match p.sound_enabled with | some v => { s with sound_enabled := v } | none => s
  let s := match p.notifications_enabled with
    | some v => { s with notifications_enabled := v } | none => s
  let s := match p.remote_control_enabled with
    | some v => { s with remote_control_enabled := v } | none => s
  let s := match p.remote_control_port with
    | some v => { s with remote_control_port := v } | none => s
  match p.remote_control_token with
  | some v => { s with remote_control_token := v } | none => s

/-- Rust `normalize_settings` (lib.rs lines 403-414). -/
def normalize_settings (s : AppSettings) : AppSettings :=
  { s with
    focus_min := clampInt s.focus_min 1 180,
    short_break_min := clampInt s.short_break_min 1 60,
    long_break_min := clampInt s.long_break_min 1 90,
    long_break_every := clampInt s.long_break_every 2 10,
    theme := if s.theme = "dark" then "dark" else "light",
    remote_control_port := clampInt s.remote_control_port 1024 65535 }

/-- Rust `ensure_remote_token` (lib.rs lines 424-428), with the random
generator abstracted to the `fresh` argument. -/
def ensure_remote_token (s : AppSettings) (fresh : String) : AppSettings :=
  if s.remote_control_token.trim = "" then { s with remote_control_token := fresh } else s

/-- Rust `settings_update` (lib.rs lines 1860-1925) restricted to the
guarded model mutation: patch, normalize, backfill the token, and, when
the timer is idle, resync the current phase to the new duration. The
remote server restart and event emission after the lock is released are
outside the model. -/
def settings_update (settings : AppSettings) (timer : TimerState)
    (patch : AppSettingsPatch) (fresh : String) : AppSettings × TimerState :=
  let s := normalize_settings (apply_settings_patch settings patch)
  let s := if s.remote_control_token.trim = "" then ensure_remote_token s fresh else s
  if timer.is_running then (s, timer)
  else
    let d := duration_for_phase_seconds s timer.phase
    (s, { timer with
          phase_total_seconds := d
          remaining_seconds := d
          started_at := none
          target_ends_at := none })

/-- The set of local calendar days carrying a nonzero Focus session,
from `calculate_streak_days` (lib.rs lines 1474-1480). Days are modelled
as integers and `day_key` (the local-timezone bucketing of an epoch
second, lib.rs lines 1466-1472) is the abstract argument `dayOf`. -/
def focus_days (dayOf : Int → Int) (sessions : List SessionRecord) : Finset Int :=
  ((sessions.filter (fun s => decide (s.phase = TimerPhase.focus ∧ 0 < s.duration_sec))).map
    (fun s => dayOf s.ended_at)).toFinset

/-- The backward walk of `calculate_streak_days` (lib.rs lines
1482-1495): count days while the current day is in the set, stepping to
the predecessor day. Termination device: the visited day is erased from
the set, which never changes a later membership test because the
visited days strictly decrease. -/
def streak_loop (days : Finset Int) (current : Int) : Nat :=
  if h : current ∈ days then 1 + streak_loop (days.erase current) (current - 1) else 0
termination_by days.card
decreasing_by exact Finset.card_erase_lt_of_mem h

/-- Rust `calculate_streak_days` (lib.rs lines 1474-1498), with `today`
(`Local::now().date_naive()`) and the day bucketing abstract. -/
def calculate_streak_days (dayOf : Int → Int) (today : Int)
    (sessions : List SessionRecord) : Nat :=
  streak_loop (focus_days dayOf sessions) today

/-- The day `d` contains at least one Focus session of nonzero duration. -/
def has_focus_session_on (dayOf : Int → Int) (sessions : List SessionRecord) (d : Int) : Prop :=
  ∃ s ∈ sessions, s.phase = TimerPhase.focus ∧ 0 < s.duration_sec ∧ dayOf s.ended_at = d

instance (dayOf : Int → Int) (sessions : List SessionRecord) (d : Int) :
    Decidable (has_focus_session_on dayOf sessions d) := by
  unfold has_focus_session_on
  infer_instance

/-- The settings used by the repository's unit tests (lib.rs lines
2060-2073): 25/5/15 minutes, long break every 4 cycles. -/
def sample_settings : AppSettings :=
  { focus_min := 25
    short_break_min := 5
    long_break_min := 15
    long_break_every := 4
    theme := "light"
    sound_enabled := true
    notifications_enabled := true
    remote_control_enabled := false
    remote_control_port := 48484
    remote_control_token := "testtoken" }

/-- A fresh paused Focus timer under the sample settings. -/
def base_timer : TimerState := default_with_settings sample_settings

/-- A loaded Focus timer whose remaining time is exactly zero. -/
def drained_timer : TimerState := { base_timer with remaining_seconds := 0 }

/-- A loaded Focus timer with negative remaining time. -/
def corrupt_timer : TimerState := { base_timer with remaining_seconds := -5 }

/-- A Focus timer with 10 of its 1500 allotted seconds elapsed. -/
def skip10_timer : TimerState := { base_timer with remaining_seconds := 1490 }

/-- A Focus timer after three completed focus phases. -/
def third_focus_timer : TimerState := { base_timer with cycle_index := 3 }

/-- A running Focus timer due to end at epoch second 200. -/
def running_timer : TimerState :=
  { base_timer with
    remaining_seconds := 150
    is_running := true
    started_at := some 50
    target_ends_at := some 200 }

/-- A running Focus timer due to end at epoch second 100. -/
def expiring_timer : TimerState :=
  { base_timer with
    remaining_seconds := 50
    is_running := true
    started_at := some 0
    target_ends_at := some 100 }

/-- A remote request for the state endpoint carrying the correct token. -/
def state_request : RemoteRequest :=
  { method := "POST", target := "/api/state?token=testtoken", headers := [], payload := none }

/-- A remote pause request carrying a wrong query token. -/
def wrong_token_request : RemoteRequest :=
  { method := "POST", target := "/api/pause?token=wrong", headers := [], payload := none }

/-- A settings patch changing nothing. -/
def empty_patch : AppSettingsPatch :=
  { focus_min := none
    short_break_min := none
    long_break_min := none
    long_break_every := none
    theme := none
    sound_enabled := none
    notifications_enabled := none
    remote_control_enabled := none
    remote_control_port := none
    remote_control_token := none }

/-- Two completed Focus sessions ending on days 10 and 9. -/
def streak_sessions : List SessionRecord :=
  [{ id := 1, started_at := 8, ended_at := 10, phase := TimerPhase.focus,
     duration_sec := 1500, completed := true, interruptions := 0,
     project_id := none, tag_ids := [] },
   { id := 2, started_at := 7, ended_at := 9, phase := TimerPhase.focus,
     duration_sec := 1500, completed := true, interruptions := 0,
     project_id := none, tag_ids := [] }]

/-- C7: while running with a target set, `refresh_remaining` recomputes
the remaining time as `max (target_ends_at - now) 0`, which is never
negative even when `now` is past the target; while not running it
leaves the state unchanged. -/
theorem refresh_clamps_to_target (timer : TimerState) (now t : Int) :
    (timer.is_running = true → timer.target_ends_at = some t →
      (refresh_remaining timer now).remaining_seconds = max (t - now) 0 ∧
        0 ≤ (refresh_remaining timer now).remaining_seconds) ∧
    (timer.is_running = false → refresh_remaining timer now = timer) := by
  constructor
  · intro hr ht
    constructor
    · simp [refresh_remaining, hr, ht]
    · simp only [refresh_remaining, hr, ht, if_true]
      exact le_max_right _ _
  · intro hr
    simp [refresh_remaining, hr]

/-- Witness for C7 at a running timer whose target (epoch 100) lies 50
seconds before `now = 150`: the remaining time clamps to zero. -/
theorem refresh_clamps_to_target_witness :
    (refresh_remaining expiring_timer 150).remaining_seconds = max ((100 : Int) - 150) 0 ∧
      0 ≤ (refresh_remaining expiring_timer 150).remaining_seconds :=
  (refresh_clamps_to_target expiring_timer 150 100).1 rfl rfl

/-- C1: advancing from Focus increments the cycle index and yields
LongBreak exactly when the incremented index is divisible by
`long_break_every` (Rust truncated remainder), else ShortBreak;
advancing from any break yields Focus; the advanced phase always starts
with a full duration, not running, with no start or target timestamp
and a zeroed interruption counter. -/
theorem advance_timer_spec (timer : TimerState) (settings : AppSettings)
    (_hpos : 0 < settings.long_break_every) :
    (timer.phase = TimerPhase.focus →
      (advance_timer timer settings).cycle_index = timer.cycle_index + 1 ∧
        ((advance_timer timer settings).phase = TimerPhase.longBreak ↔
          (timer.cycle_index + 1).tmod settings.long_break_every = 0) ∧
        ((advance_timer timer settings).phase = TimerPhase.shortBreak ↔
          (timer.cycle_index + 1).tmod settings.long_break_every ≠ 0)) ∧
    (timer.phase = TimerPhase.shortBreak ∨ timer.phase = TimerPhase.longBreak →
      (advance_timer timer settings).phase = TimerPhase.focus) ∧
    (advance_timer timer settings).remaining_seconds =
      duration_for_phase_seconds settings (advance_timer timer settings).phase ∧
    (advance_timer timer settings).phase_total_seconds =
      duration_for_phase_seconds settings (advance_timer timer settings).phase ∧
    (advance_timer timer settings).is_running = false ∧
    (advance_timer timer settings).started_at = none ∧
    (advance_timer timer settings).target_ends_at = none ∧
    (advance_timer timer settings).interruptions = 0 := by
  obtain ⟨ph, rem, run, cyc, sa, tot, intr, pid, tags, tgt⟩ := timer
  cases ph <;> by_cases h : (cyc + 1).tmod settings.long_break_every = 0 <;>
    simp [advance_timer, h]

/-- Witness for C1: a Focus phase with three completed cycles under the
sample settings (long break every 4) advances to LongBreak. -/
theorem advance_timer_spec_witness :
    (advance_timer third_focus_timer sample_settings).phase = TimerPhase.longBreak :=
  ((advance_timer_spec third_focus_timer sample_settings (by decide)).1 rfl).2.1.mpr (by decide)

/-- C3: an early-ended phase records the elapsed time
`phase_total_seconds - remaining_seconds` clamped into
`[0, phase_total_seconds]` with `completed = false`; a completed phase
records the full duration; in particular a Focus phase skipped with 10
of its 1500 allotted seconds elapsed records `duration_sec = 10`. -/
theorem record_session_duration (timer : TimerState) (ended id : Int)
    (htot : 0 ≤ timer.phase_total_seconds) :
    (record_session timer false ended id).duration_sec =
        clampInt (timer.phase_total_seconds - timer.remaining_seconds) 0
          timer.phase_total_seconds ∧
      (record_session timer false ended id).completed = false ∧
      0 ≤ (record_session timer false ended id).duration_sec ∧
      (record_session timer false ended id).duration_sec ≤ timer.phase_total_seconds ∧
      (record_session timer true ended id).duration_sec = timer.phase_total_seconds ∧
      (record_session timer true ended id).completed = true ∧
      (record_session skip10_timer false ended id).duration_sec = 10 := by
  refine ⟨rfl, rfl, ?_, ?_, rfl, rfl, ?_⟩
  · simp only [record_session, clampInt]
    omega
  · simp only [record_session, clampInt]
    omega
  · simp [record_session, clampInt, skip10_timer, base_timer, default_with_settings,
      sample_settings, duration_for_phase_seconds]

/-- Witness for C3 at the skipped-after-10-seconds timer. -/
theorem record_session_duration_witness :
    (record_session skip10_timer false 1000 1).duration_sec = 10 :=
  (record_session_duration skip10_timer 1000 1 (by decide)).2.2.2.2.2.2

/-- Counterexample to C2 as stated: a loaded timer with
`remaining_seconds = 0` lies inside `[0, phase_total_seconds]` yet
normalization does not keep it — it resets the remaining time to the
full phase duration, because the source condition is
`remaining_seconds <= 0`, not `< 0`. -/
theorem load_keeps_inrange_counterexample :
    0 ≤ drained_timer.remaining_seconds ∧
      drained_timer.remaining_seconds ≤
        duration_for_phase_seconds sample_settings drained_timer.phase ∧
      (load_or_create_timer (some drained_timer) sample_settings).remaining_seconds ≠
        drained_timer.remaining_seconds ∧
      (load_or_create_timer (some drained_timer) sample_settings).remaining_seconds =
        duration_for_phase_seconds sample_settings drained_timer.phase := by
  decide

/-- C2 amended: loading resets `remaining_seconds` to the full phase
duration and forces a paused state exactly when the loaded value is
outside `(0, phase_total_seconds]` — that is, when it is `≤ 0` or
greater than the full duration; a loaded value that is positive and at
most the full duration is kept, along with the running flag and the
target timestamp. -/
theorem load_normalization_bounds (timer : TimerState) (settings : AppSettings) :
    (timer.remaining_seconds ≤ 0 ∨
        duration_for_phase_seconds settings timer.phase < timer.remaining_seconds →
      (load_or_create_timer (some timer) settings).remaining_seconds =
          duration_for_phase_seconds settings timer.phase ∧
        (load_or_create_timer (some timer) settings).is_running = false ∧
        (load_or_create_timer (some timer) settings).target_ends_at = none) ∧
    (0 < timer.remaining_seconds →
      timer.remaining_seconds ≤ duration_for_phase_seconds settings timer.phase →
      (load_or_create_timer (some timer) settings).remaining_seconds =
          timer.remaining_seconds ∧
        (load_or_create_timer (some timer) settings).is_running = timer.is_running ∧
        (load_or_create_timer (some timer) settings).target_ends_at =
          timer.target_ends_at) := by
  obtain ⟨ph, rem, run, cyc, sa, tot, intr, pid, tags, tgt⟩ := timer
  constructor
  · intro h
    simp only [load_or_create_timer, Option.getD, normalize_timer_state]
    split_ifs <;> simp_all
  · intro h1 h2
    simp only [load_or_create_timer, Option.getD, normalize_timer_state]
    split_ifs <;> simp_all <;> omega

/-- Witness for the amended C2: a loaded timer with negative remaining
time is reset to the full 1500-second Focus duration and paused. -/
theorem load_normalization_bounds_witness :
    (load_or_create_timer (some corrupt_timer) sample_settings).remaining_seconds =
        duration_for_phase_seconds sample_settings corrupt_timer.phase ∧
      (load_or_create_timer (some corrupt_timer) sample_settings).is_running = false ∧
      (load_or_create_timer (some corrupt_timer) sample_settings).target_ends_at = none :=
  (load_normalization_bounds corrupt_timer sample_settings).1 (Or.inl (by decide))

/-- Resuming with no payload never changes a positive remaining time. -/
theorem resume_keeps_positive_remaining (s : TimerState) (now : Int)
    (h : 0 < s.remaining_seconds) :
    (timer_resume_inner s none now).remaining_seconds = s.remaining_seconds := by
  obtain ⟨ph, rem, run, cyc, sa, tot, intr, pid, tags, tgt⟩ := s
  simp only [timer_resume_inner, apply_start_payload] at *
  split_ifs <;> simp_all <;> omega

/-- Counterexample to C8 as stated: pausing a running Focus timer at
the instant its target expires leaves zero remaining seconds, and the
immediate resume then resets the remaining time to the full phase
duration (1500) instead of restoring zero. -/
theorem pause_resume_counterexample :
    (timer_resume_inner (timer_pause_inner expiring_timer 100) none
          100).remaining_seconds ≠
      (timer_pause_inner expiring_timer 100).remaining_seconds := by
  decide

/-- C8 amended: whenever the remaining time immediately after the pause
is positive, resuming at the same instant restores exactly that
remaining time; a post-pause remaining time of zero is instead reset to
the full phase duration by resume. -/
theorem pause_then_resume_remaining (timer : TimerState) (now : Int)
    (h : 0 < (timer_pause_inner timer now).remaining_seconds) :
    (timer_resume_inner (timer_pause_inner timer now) none now).remaining_seconds =
      (timer_pause_inner timer now).remaining_seconds :=
  resume_keeps_positive_remaining (timer_pause_inner timer now) now h

/-- Witness for the amended C8: pausing the running timer (target 200)
at `now = 100` leaves 100 seconds, and resuming restores 100. -/
theorem pause_then_resume_remaining_witness :
    (timer_resume_inner (timer_pause_inner running_timer 100) none 100).remaining_seconds =
      (timer_pause_inner running_timer 100).remaining_seconds :=
  pause_then_resume_remaining running_timer 100 (by decide)

/-- C10: a settings update with the timer idle resyncs the current
phase to the new settings — full remaining time, cleared start and
target timestamps — while a settings update with the timer running
leaves the timer unchanged. -/
theorem settings_update_timer_effect (settings : AppSettings) (timer : TimerState)
    (patch : AppSettingsPatch) (fresh : String) :
    (timer.is_running = true →
      (settings_update settings timer patch fresh).2 = timer) ∧
    (timer.is_running = false →
      (settings_update settings timer patch fresh).2 =
        { timer with
          phase_total_seconds :=
            duration_for_phase_seconds (settings_update settings timer patch fresh).1
              timer.phase
          remaining_seconds :=
            duration_for_phase_seconds (settings_update settings timer patch fresh).1
              timer.phase
          started_at := none
          target_ends_at := none }) := by
  constructor <;> intro h <;> simp [settings_update, h]

/-- Witness for C10 at the fresh paused timer and the empty patch. -/
theorem settings_update_timer_effect_witness :
    (settings_update sample_settings base_timer empty_patch "tok").2 =
      { base_timer with
        phase_total_seconds :=
          duration_for_phase_seconds (settings_update sample_settings base_timer
            empty_patch "tok").1 base_timer.phase
        remaining_seconds :=
          duration_for_phase_seconds (settings_update sample_settings base_timer
            empty_patch "tok").1 base_timer.phase
        started_at := none
        target_ends_at := none } :=
  (settings_update_timer_effect sample_settings base_timer empty_patch "tok").2 rfl

/-- C4: at a single instant `now`, the `/api/toggle` route produces the
same resulting timer state as `/api/pause` when running, as
`/api/resume` when not running but previously started, and as
`/api/start` when never started. -/
theorem toggle_route_cases (timer : TimerState) (now : Int) :
    (timer.is_running = true →
      toggle_route timer now = timer_pause_inner timer now) ∧
    (timer.is_running = false → timer.started_at.isSome = true →
      toggle_route timer now = timer_resume_inner timer none now) ∧
    (timer.is_running = false → timer.started_at = none →
      toggle_route timer now = timer_start_inner timer none now) := by
  obtain ⟨ph, rem, run, cyc, sa, tot, intr, pid, tags, tgt⟩ := timer
  refine ⟨?_, ?_, ?_⟩
  · intro h1
    subst h1
    cases tgt <;>
      simp [toggle_route, timer_get_state_inner, refresh_remaining, timer_pause_inner]
  · intro h1 h2
    subst h1
    cases sa <;> simp_all [toggle_route, timer_get_state_inner, refresh_remaining]
  · intro h1 h2
    subst h1
    subst h2
    simp [toggle_route, timer_get_state_inner, refresh_remaining]

/-- Witness for C4: toggling the running timer pauses it. -/
theorem toggle_route_cases_witness :
    toggle_route running_timer 100 = timer_pause_inner running_timer 100 :=
  (toggle_route_cases running_timer 100).1 rfl

/-- C5: with remote control disabled, any parsed request whose method is
not OPTIONS is answered 404 — whatever its path and token — and the
shared timer state is left untouched. -/
theorem disabled_remote_responds_404 (req : RemoteRequest) (token_expected : String)
    (settings : AppSettings) (timer : TimerState) (now : Int)
    (hm : eq_ignore_ascii_case req.method "OPTIONS" = false) :
    remote_handle_connection req false token_expected settings timer now =
      ("404 Not Found", timer) := by
  simp [remote_handle_connection, hm]

/-- Witness for C5: a state request with the correct token still gets
404 while remote control is disabled, and the timer is unchanged. -/
theorem disabled_remote_responds_404_witness :
    remote_handle_connection state_request false "testtoken" sample_settings base_timer 0 =
      ("404 Not Found", base_timer) :=
  disabled_remote_responds_404 state_request "testtoken" sample_settings base_timer 0
    (by decide)

/-- C6: with remote control enabled, a non-OPTIONS request to any path
other than the root page whose supplied token (header, else query
parameter, else empty) differs from the configured token is answered
401, and the shared timer state is left untouched. -/
theorem bad_token_responds_401 (req : RemoteRequest) (token_expected : String)
    (settings : AppSettings) (timer : TimerState) (now : Int)
    (hm : eq_ignore_ascii_case req.method "OPTIONS" = false)
    (hp : (split_path_query req.target).1 ≠ "/")
    (ht : supplied_token req ≠ token_expected) :
    remote_handle_connection req true token_expected settings timer now =
      ("401 Unauthorized", timer) := by
  simp [remote_handle_connection, hm, hp, ht]

/-- Witness for C6: a pause request with a wrong query token gets 401
and the timer is unchanged. -/
theorem bad_token_responds_401_witness :
    remote_handle_connection wrong_token_request true "testtoken" sample_settings
        base_timer 0 =
      ("401 Unauthorized", base_timer) :=
  bad_token_responds_401 wrong_token_request "testtoken" sample_settings base_timer 0
    (by decide) (by decide) (by decide)

/-- Membership in the focus-day set is existence of a nonzero Focus
session ending on that day. -/
theorem mem_focus_days (dayOf : Int → Int) (sessions : List SessionRecord) (d : Int) :
    d ∈ focus_days dayOf sessions ↔ has_focus_session_on dayOf sessions d := by
  simp only [focus_days, has_focus_session_on, List.mem_toFinset, List.mem_map,
    List.mem_filter, decide_eq_true_eq]
  constructor
  · rintro ⟨s, ⟨hs, hf, hd⟩, hday⟩
    exact ⟨s, hs, hf, hd, hday⟩
  · rintro ⟨s, hs, hf, hd, hday⟩
    exact ⟨s, ⟨hs, hf, hd⟩, hday⟩

/-- The backward walk counts exactly a maximal run of consecutive
member days. -/
theorem streak_loop_eq_run (k : Nat) :
    ∀ (days : Finset Int) (today : Int),
      (∀ i : Nat, i < k → (today - (i : Int)) ∈ days) →
      (today - (k : Int)) ∉ days →
      streak_loop days today = k := by
  induction k with
  | zero =>
      intro days today _ h2
      rw [streak_loop]
      rw [dif_neg]
      simpa using h2
  | succ k ih =>
      intro days today h1 h2
      have h0 : today ∈ days := by simpa using h1 0 (Nat.succ_pos k)
      rw [streak_loop, dif_pos h0]
      have hrest : streak_loop (days.erase today) (today - 1) = k := by
        apply ih
        · intro i hi
          rw [Finset.mem_erase]
          constructor
          · omega
          · have := h1 (i + 1) (by omega)
            have harith : today - 1 - (i : Int) = today - ((i : Nat) + 1 : Nat) := by
              push_cast
              ring
            rw [harith]
            exact_mod_cast this
        · intro hmem
          apply h2
          have harith : today - 1 - (k : Int) = today - ((k : Nat) + 1 : Nat) := by
            push_cast
            ring
          rw [harith] at hmem
          exact_mod_cast Finset.mem_of_mem_erase hmem
      omega

/-- C9: the streak equals the length of the maximal run of consecutive
days, walking backward from today, each containing at least one
nonzero-duration Focus session: if the first `k` days all have one and
day `today - k` has none, the computed streak is exactly `k`. -/
theorem streak_counts_consecutive_days (dayOf : Int → Int) (today : Int)
    (sessions : List SessionRecord) (k : Nat)
    (h1 : ∀ i : Nat, i < k → has_focus_session_on dayOf sessions (today - (i : Int)))
    (h2 : ¬ has_focus_session_on dayOf sessions (today - (k : Int))) :
    calculate_streak_days dayOf today sessions = k := by
  unfold calculate_streak_days
  apply streak_loop_eq_run
  · intro i hi
    rw [mem_focus_days]
    exact h1 i hi
  · rw [mem_focus_days]
    exact h2

/-- Witness for C9: two Focus sessions ending on days 10 and 9 with
today = 10 and no session on day 8 give a streak of 2. -/
theorem streak_counts_consecutive_days_witness :
    calculate_streak_days (fun t => t) 10 streak_sessions = 2 :=
  streak_counts_consecutive_days (fun t => t) 10 streak_sessions 2
    (by decide) (by decide)

end Pomodoro
